import Mathlib

/-!
Verification of the Reliable Asynchronous Delivery Subsystem of the
whatsapp-web-docker gateway (index.js, src/validators/schemas.js,
src/models/WebhookLog schema, the bulk-message queue endpoint and the
queue worker).

The embedding translates:
* `sendToWebhook(event, data, retryCount)` (index.js lines 111-183) as a
  per-attempt step function `attemptStep` plus a fuelled chain `runFrom`.
  External effects (the database `WebhookLog.create`, the axios POST, the
  two `webhookLog.save()` calls) are supplied by an environment oracle
  `AttemptEnv`, one per attempt index.
* the Joi `sendBulkMessages` schema and the `validate` middleware plus the
  `/api/send-bulk-messages` handler as `submitBatch`.
* the chat-id formatting shared by the queue worker and the direct
  send route (append the `@c.us` suffix unless already present) as
  `formatChatId` / `processJob`.
-/

namespace WA

/-- Configuration surface used by the webhook dispatcher:
`WEBHOOK_URL`, `WEBHOOK_RETRY_ATTEMPTS`, `WEBHOOK_RETRY_DELAY`,
and whether the MongoDB connection is up (`getConnectionStatus()`). -/
structure Config where
  webhookUrl : String
  retryAttempts : Nat
  retryDelay : Nat
  dbConnected : Bool
deriving DecidableEq

/-- Outcome of one `axios.post` call. With the axios default
`validateStatus`, the promise resolves exactly for 2xx statuses
(`ok`), and rejects otherwise (`err`), carrying
`error.response?.status` which is absent for timeouts and transport
errors. -/
inductive PostResult where
  | ok (status : Nat)
  | err (status : Option Nat)
deriving DecidableEq

/-- External-effect oracle for one invocation of `sendToWebhook`:
whether `WebhookLog.create` succeeds, the POST outcome, whether the
success-path `webhookLog.save()` succeeds, and whether the
catch-path `webhookLog.save()` succeeds. -/
structure AttemptEnv where
  createOk : Bool
  post : PostResult
  saveOk1 : Bool
  saveOk2 : Bool

/-- The `status` enum of the `webhookLogSchema`
(src/utils/logger.js part, lines 179-184):
`pending`, `retrying`, `success`, `failed`. -/
inductive RecStatus where
  | pending
  | retrying
  | success
  | failed
deriving DecidableEq

/-- One `WebhookLog` document, with timestamps abstracted to
"has been set" booleans. `retryCount` is the value passed to
`WebhookLog.create` at this invocation. -/
structure WebhookLog where
  event : String
  retryCount : Nat
  status : RecStatus
  statusCode : Option Nat
  completedAt : Bool
  lastRetryAt : Bool
deriving DecidableEq

/-- The fresh document created by `WebhookLog.create` with
status pending and the current retryCount (index.js lines 129-135). -/
def initLog (event : String) (r : Nat) : WebhookLog :=
  { event := event
    retryCount := r
    status := RecStatus.pending
    statusCode := none
    completedAt := false
    lastRetryAt := false }

/-- `config.WEBHOOK_RETRY_DELAY * Math.pow(2, retryCount)`
(index.js line 178). -/
def retryDelayOf (base r : Nat) : Nat := base * 2 ^ r

/-- The status written in the catch block (index.js line 166):
retrying while retryCount < WEBHOOK_RETRY_ATTEMPTS, else failed. -/
def nextStatus (cfg : Config) (r : Nat) : RecStatus :=
  if r < cfg.retryAttempts then RecStatus.retrying else RecStatus.failed

/-- Result of one invocation of `sendToWebhook` at a given
`retryCount`: the final state of the `WebhookLog` document it created
(if any), whether the HTTP POST was performed, whether a retry was
scheduled via `setTimeout` and with which delay, and whether the
promise of the invocation rejected (an unhandled save error inside the
catch block). -/
structure AttemptResult where
  record : Option WebhookLog
  posted : Bool
  retryScheduled : Bool
  retryDelay : Nat
  crashed : Bool
deriving DecidableEq

/-- One invocation of `sendToWebhook(event, data, r)` after the
empty-URL guard (index.js lines 117-182). Mirrors the control flow:
create the log (guarded by `getConnectionStatus()`, errors caught),
POST; on 2xx set success fields and save; if that save throws, fall
into the catch block (the thrown save error has no HTTP response, so
`error.response?.status` is absent); in the catch block update the
log, save it (a failure here rejects the promise before the retry is
scheduled), then schedule a retry iff `r < retryAttempts`. -/
def attemptStep (cfg : Config) (event : String) (env : AttemptEnv) (r : Nat) :
    AttemptResult :=
  let rec0 : Option WebhookLog :=
    if cfg.dbConnected && env.createOk then some (initLog event r) else none
  match env.post with
  | PostResult.ok s =>
    match rec0 with
    | none =>
        { record := none
          posted := true
          retryScheduled := false
          retryDelay := 0
          crashed := false }
    | some l =>
        let l1 := { l with
          status := RecStatus.success
          statusCode := some s
          completedAt := true }
        if env.saveOk1 then
          { record := some l1
            posted := true
            retryScheduled := false
            retryDelay := 0
            crashed := false }
        else
          let l2 := { l1 with
            status := nextStatus cfg r
            statusCode := none
            lastRetryAt := true
            completedAt := l1.completedAt || decide (nextStatus cfg r = RecStatus.failed) }
          if env.saveOk2 then
            if r < cfg.retryAttempts then
              { record := some l2
                posted := true
                retryScheduled := true
                retryDelay := retryDelayOf cfg.retryDelay r
                crashed := false }
            else
              { record := some l2
                posted := true
                retryScheduled := false
                retryDelay := 0
                crashed := false }
          else
            { record := some l2
              posted := true
              retryScheduled := false
              retryDelay := 0
              crashed := true }
  | PostResult.err st? =>
    match rec0 with
    | none =>
        if r < cfg.retryAttempts then
          { record := none
            posted := true
            retryScheduled := true
            retryDelay := retryDelayOf cfg.retryDelay r
            crashed := false }
        else
          { record := none
            posted := true
            retryScheduled := false
            retryDelay := 0
            crashed := false }
    | some l =>
        let l2 := { l with
          status := nextStatus cfg r
          statusCode := st?
          lastRetryAt := true
          completedAt := l.completedAt || decide (nextStatus cfg r = RecStatus.failed) }
        if env.saveOk2 then
          if r < cfg.retryAttempts then
            { record := some l2
              posted := true
              retryScheduled := true
              retryDelay := retryDelayOf cfg.retryDelay r
              crashed := false }
          else
            { record := some l2
              posted := true
              retryScheduled := false
              retryDelay := 0
              crashed := false }
        else
          { record := some l2
            posted := true
            retryScheduled := false
            retryDelay := 0
            crashed := true }

/-- The retry chain: run attempts from retryCount `r` while a retry
is scheduled. Fuel bounds recursion; `retryAttempts + 1` fuel is
enough because a retry is only scheduled while `r < retryAttempts`. -/
def runFrom (cfg : Config) (event : String) (envs : Nat → AttemptEnv) :
    Nat → Nat → List (Nat × AttemptResult)
  | 0, _ => []
  | fuel + 1, r =>
    let res := attemptStep cfg event (envs r) r
    (r, res) :: (if res.retryScheduled then runFrom cfg event envs fuel (r + 1) else [])

/-- `sendToWebhook(event, data)` from the top: the empty-`WEBHOOK_URL`
guard (index.js lines 112-115), then the attempt chain starting at
`retryCount = 0`. The returned list holds one entry per invocation,
in order. -/
def sendToWebhook (cfg : Config) (event : String) (envs : Nat → AttemptEnv) :
    List (Nat × AttemptResult) :=
  if cfg.webhookUrl = "" then []
  else runFrom cfg event envs (cfg.retryAttempts + 1) 0

/-! ### Bulk messages: Joi schema, validate middleware, /api/send-bulk-messages -/

/-- One item of the `sendBulkMessages` Joi schema
(src/validators/schemas.js lines 42-54): `number` (pattern
`/^[0-9@.]+$/`, required), `message` (min length 1, required),
`delay` (number, 0 ≤ delay ≤ 60000, optional). -/
structure BulkMsg where
  number : String
  message : String
  delay : Option Nat
deriving DecidableEq

/-- The Joi pattern of digits, at-sign and dot on a required string:
at least one
character, all of them digits, `@` or `.`. -/
def validNumber (s : String) : Bool :=
  decide (s.length ≠ 0) && s.data.all (fun c => c.isDigit || c = '@' || c = '.')

/-- One bulk item passes the Joi item schema. -/
def validItem (m : BulkMsg) : Bool :=
  validNumber m.number && decide (m.message.length ≠ 0) &&
    (match m.delay with
     | none => true
     | some d => decide (d ≤ 60000))

/-- The `messages` array constraint: `.min(1).max(100)` and every
item valid. The `validate` middleware runs this Joi schema and
answers 400 before the route handler executes on any violation. -/
def validBulk (msgs : List BulkMsg) : Bool :=
  decide (1 ≤ msgs.length) && decide (msgs.length ≤ 100) && msgs.all validItem

/-- HTTP-level outcome of a POST to `/api/send-bulk-messages`. -/
inductive BulkOutcome where
  | validationError
  | notReady
  | queueUnavailable
  | ok (jobs : List (String × Nat))
deriving DecidableEq

/-- Observable result of one bulk submission: the response, the jobs
that were enqueued into the Bull queue (with their assigned ids), and
the provider sends performed by the handler itself (always none: the
handler only enqueues; workers send later). -/
structure BulkResult where
  outcome : BulkOutcome
  enqueued : List (BulkMsg × Nat)
  sends : List (String × String)
deriving DecidableEq

/-- The `/api/send-bulk-messages` route (index.js lines 565-599)
composed with its `validate(schemas.sendBulkMessages)` middleware:
validation first (middleware order), then the `isReady` check, then
the `messageQueue` availability check, then one `messageQueue.add`
per item in submission order, collecting `{number, jobId}` pairs.
Job ids are modelled as consecutive from `nextId`. -/
def submitBatch (ready queueUp : Bool) (msgs : List BulkMsg) (nextId : Nat) :
    BulkResult :=
  if !(validBulk msgs) then
    { outcome := BulkOutcome.validationError, enqueued := [], sends := [] }
  else if !ready then
    { outcome := BulkOutcome.notReady, enqueued := [], sends := [] }
  else if !queueUp then
    { outcome := BulkOutcome.queueUnavailable, enqueued := [], sends := [] }
  else
    let jobs := msgs.enum.map (fun p => (p.2, nextId + p.1))
    { outcome := BulkOutcome.ok (jobs.map (fun q => (q.1.number, q.2)))
      enqueued := jobs
      sends := [] }

/-! ### Chat-id formatting: queue worker and /api/send-message -/

/-- The JS includes check on the `@c.us` suffix: substring containment. -/
def containsCus (s : String) : Bool :=
  decide (List.IsInfix "@c.us".data s.data)

/-- The chat-id conditional of index.js lines 405 and 554: keep the
number when it already contains `@c.us`, else append `@c.us`. -/
def formatChatId (number : String) : String :=
  if containsCus number then number else number ++ "@c.us"

/-- Data of one Bull job as consumed by `messageQueue.process`
(index.js lines 397-413). -/
structure QueuedJob where
  number : String
  message : String
  delay : Option Nat

/-- The worker body: the `(chatId, message)` pair actually passed to
`client.sendMessage`. -/
def processJob (j : QueuedJob) : String × String :=
  (formatChatId j.number, j.message)

/-- The send performed by the `/api/send-message` handler: same formatting
(index.js lines 553-555). -/
def sendMessageRoute (number message : String) : String × String :=
  (formatChatId number, message)

/-! ### Concrete scenario configurations -/

/-- Scenario B configuration: `WEBHOOK_RETRY_ATTEMPTS = 3`, base delay
`base`, database reachable. -/
def cfgScenB (base : Nat) : Config :=
  { webhookUrl := "http://callback.example"
    retryAttempts := 3
    retryDelay := base
    dbConnected := true }

/-- Environment where the callback endpoint answers HTTP 500 on every
call and the database is healthy. -/
def envB : Nat → AttemptEnv :=
  fun _ =>
    { createOk := true
      post := PostResult.err (some 500)
      saveOk1 := true
      saveOk2 := true }

/-- Environment where every POST succeeds with HTTP 204 but persisting
the success outcome fails (the success-path `webhookLog.save()`
throws); the catch-path save succeeds. -/
def envSaveFail : Nat → AttemptEnv :=
  fun _ =>
    { createOk := true
      post := PostResult.ok 204
      saveOk1 := false
      saveOk2 := true }

/-- Environment whose first attempt gets a 2xx with a failing
success-save, and whose later attempts fail with a transport error. -/
def envs9 : Nat → AttemptEnv := fun r =>
  if r = 0 then
    { createOk := true
      post := PostResult.ok 200
      saveOk1 := false
      saveOk2 := true }
  else
    { createOk := true
      post := PostResult.err none
      saveOk1 := true
      saveOk2 := true }

/-- Configuration with zero configured retries, database reachable. -/
def cfgA0 : Config :=
  { webhookUrl := "http://callback.example"
    retryAttempts := 0
    retryDelay := 100
    dbConnected := true }

/-- A single well-formed bulk item. -/
def msgOne : BulkMsg := { number := "123", message := "hi", delay := none }

/-- A second well-formed bulk item with a delay. -/
def msgTwo : BulkMsg := { number := "456", message := "yo", delay := some 5000 }

/-- The failed record left by the single attempt of the zero-retry
configuration when the endpoint answers HTTP 500. -/
def failedLog : WebhookLog :=
  { event := "message"
    retryCount := 0
    status := RecStatus.failed
    statusCode := some 500
    completedAt := true
    lastRetryAt := true }

/-! ### Helper lemmas about one attempt and the chain -/

theorem nextStatus_ne_success (cfg : Config) (r : Nat) :
    nextStatus cfg r ≠ RecStatus.success := by
  unfold nextStatus; split <;> simp

theorem nextStatus_ne_pending (cfg : Config) (r : Nat) :
    nextStatus cfg r ≠ RecStatus.pending := by
  unfold nextStatus; split <;> simp

theorem nextStatus_failed_iff (cfg : Config) (r : Nat) :
    nextStatus cfg r = RecStatus.failed ↔ cfg.retryAttempts ≤ r := by
  unfold nextStatus; split <;> simp <;> omega

/-- A retry is only ever scheduled while `retryCount < retryAttempts`. -/
theorem attemptStep_retryScheduled_lt (cfg : Config) (event : String) (env : AttemptEnv) (r : Nat)
    (h : (attemptStep cfg event env r).retryScheduled = true) : r < cfg.retryAttempts := by
  unfold attemptStep at h
  split at h <;> split at h <;>
    (try split at h) <;> (try split at h) <;> (try split at h) <;> simp_all

/-- The record an attempt leaves behind carries the retryCount of
that attempt and the event tag. -/
theorem attemptStep_record_retryCount (cfg : Config) (event : String) (env : AttemptEnv) (r : Nat)
    (l : WebhookLog) (h : (attemptStep cfg event env r).record = some l) :
    l.retryCount = r ∧ l.event = event := by
  unfold attemptStep at h
  split at h <;> split at h <;>
    (try split at h) <;> (try split at h) <;> (try split at h) <;>
    simp_all [initLog] <;> subst h <;> simp

/-- Status facts about the record one attempt leaves behind: `failed`
only once attempts are exhausted; `success` only from a resolved POST,
carrying its status code; and when the success-path save cannot fail,
`completedAt` is set exactly on the terminal statuses. -/
theorem attemptStep_record_status (cfg : Config) (event : String) (env : AttemptEnv) (r : Nat)
    (l : WebhookLog) (h : (attemptStep cfg event env r).record = some l) :
    (l.status = RecStatus.failed → cfg.retryAttempts ≤ r) ∧
    (l.status = RecStatus.success → ∃ s, env.post = PostResult.ok s ∧ l.statusCode = some s) ∧
    (env.saveOk1 = true →
      (l.completedAt = true ↔ l.status = RecStatus.success ∨ l.status = RecStatus.failed)) := by
  unfold attemptStep at h
  split at h <;> split at h <;>
    (try split at h) <;> (try split at h) <;> (try split at h) <;>
    simp_all [initLog, nextStatus_failed_iff, nextStatus_ne_success] <;> subst h <;>
    simp_all [nextStatus_failed_iff, nextStatus_ne_success, nextStatus_ne_pending]

/-- Every invocation past the URL guard performs the HTTP POST. -/
theorem attemptStep_posted (cfg : Config) (event : String) (env : AttemptEnv) (r : Nat) :
    (attemptStep cfg event env r).posted = true := by
  unfold attemptStep
  split <;> split <;> (try split) <;> (try split) <;> (try split) <;> simp

/-- With the database up and `WebhookLog.create` succeeding, the
attempt creates its own record. -/
theorem attemptStep_record_isSome (cfg : Config) (event : String) (env : AttemptEnv) (r : Nat)
    (hdb : cfg.dbConnected = true) (hc : env.createOk = true) :
    ∃ l, (attemptStep cfg event env r).record = some l ∧ l.retryCount = r := by
  have h2 := attemptStep_record_retryCount cfg event env r
  unfold attemptStep
  split <;> split <;> (try split) <;> (try split) <;> (try split) <;> simp_all [initLog]

/-- With the database down, an attempt creates no record and cannot
crash on a save, but still posts and retries as usual. -/
theorem attemptStep_record_none (cfg : Config) (event : String) (env : AttemptEnv) (r : Nat)
    (hdb : cfg.dbConnected = false) :
    (attemptStep cfg event env r).record = none ∧
    (attemptStep cfg event env r).crashed = false := by
  unfold attemptStep
  split <;> split <;> (try split) <;> (try split) <;> (try split) <;> simp_all

/-- Every chain entry is the step function applied at its own attempt
index, and indices stay within the attempt budget. -/
theorem runFrom_mem (cfg : Config) (event : String) (envs : Nat → AttemptEnv) :
    ∀ fuel r0, r0 ≤ cfg.retryAttempts →
      ∀ p ∈ runFrom cfg event envs fuel r0,
        p.2 = attemptStep cfg event (envs p.1) p.1 ∧ p.1 ≤ cfg.retryAttempts := by
  intro fuel
  induction fuel with
  | zero => intro r0 _ p hp; simp [runFrom] at hp
  | succ n ih =>
    intro r0 h0 p hp
    simp only [runFrom] at hp
    rcases List.mem_cons.mp hp with rfl | htail
    · exact ⟨rfl, h0⟩
    · split at htail
      · next hs =>
          have hlt := attemptStep_retryScheduled_lt cfg event (envs r0) r0 hs
          exact ih (r0 + 1) hlt p htail
      · simp at htail

/-- Chain-membership form of `runFrom_mem` for the full dispatch. -/
theorem sendToWebhook_mem (cfg : Config) (event : String) (envs : Nat → AttemptEnv)
    (p : Nat × AttemptResult) (hp : p ∈ sendToWebhook cfg event envs) :
    p.2 = attemptStep cfg event (envs p.1) p.1 ∧ p.1 ≤ cfg.retryAttempts := by
  unfold sendToWebhook at hp
  split at hp
  · simp at hp
  · exact runFrom_mem cfg event envs _ 0 (Nat.zero_le _) p hp

/-- The delay a scheduled retry uses is exactly
`WEBHOOK_RETRY_DELAY * 2 ^ retryCount`. -/
theorem attemptStep_retryDelay_eq (cfg : Config) (event : String) (env : AttemptEnv) (r : Nat)
    (h : (attemptStep cfg event env r).retryScheduled = true) :
    (attemptStep cfg event env r).retryDelay = retryDelayOf cfg.retryDelay r := by
  by_cases hdb : cfg.dbConnected = true <;> by_cases hc : env.createOk = true <;>
    rcases hpost : env.post with s | st <;>
    by_cases h1 : env.saveOk1 = true <;> by_cases h2 : env.saveOk2 = true <;>
    by_cases hr : r < cfg.retryAttempts <;>
    simp_all [attemptStep, initLog]

/-! ### Claim theorems -/

/-- C1, counterexample: with `maxRetryAttempts = 3` and an endpoint
answering HTTP 500 on every call, the dispatcher does NOT perform
exactly 3 POST attempts — the chain has a different length (the code
performs the initial attempt plus 3 retries). -/
theorem c1_counterexample :
    (sendToWebhook (cfgScenB 100) "message" envB).length ≠ 3 := by
  decide

/-- C1, amended: under Scenario B the dispatcher performs exactly 4
POST attempts (1 initial + 3 retries), with delays `baseDelay`,
`2*baseDelay`, `4*baseDelay` between consecutive attempts, and the
final record of the chain ends in state `failed` with
`lastHttpStatus = 500` and `completedAt` set. -/
theorem c1_retry_schedule (base : Nat) :
    (sendToWebhook (cfgScenB base) "message" envB).map (fun p => (p.1, p.2.retryDelay)) =
      [(0, base * 1), (1, base * 2), (2, base * 4), (3, 0)] ∧
    ((sendToWebhook (cfgScenB base) "message" envB).getLast?).map (fun p => p.2.record) =
      some (some
        { event := "message"
          retryCount := 3
          status := RecStatus.failed
          statusCode := some 500
          completedAt := true
          lastRetryAt := true }) :=
  ⟨rfl, rfl⟩

/-- C2, counterexample: dispatching one event under Scenario B creates
4 `WebhookLog` records, not exactly one — every retry invocation calls
`WebhookLog.create` again instead of mutating the first record. -/
theorem c2_counterexample :
    ((sendToWebhook (cfgScenB 100) "message" envB).filterMap
      (fun p => p.2.record)).length ≠ 1 := by
  decide

/-- C2, amended: while the store is reachable and `WebhookLog.create`
succeeds, every attempt (the initial one and each retry) creates its
own fresh DeliveryRecord, identified by its `retryCount` equal to the
attempt index; no record is shared across attempts. -/
theorem c2_record_per_attempt (cfg : Config) (event : String) (envs : Nat → AttemptEnv)
    (hdb : cfg.dbConnected = true) (hc : ∀ r, (envs r).createOk = true)
    (p : Nat × AttemptResult) (hp : p ∈ sendToWebhook cfg event envs) :
    ∃ l, p.2.record = some l ∧ l.retryCount = p.1 ∧ l.event = event := by
  obtain ⟨hstep, _⟩ := sendToWebhook_mem cfg event envs p hp
  obtain ⟨l, hl, hrc⟩ := attemptStep_record_isSome cfg event (envs p.1) p.1 hdb (hc p.1)
  have hev := (attemptStep_record_retryCount cfg event (envs p.1) p.1 l hl).2
  exact ⟨l, by rw [hstep]; exact hl, hrc, hev⟩

/-- C2, witness: the first attempt of the Scenario B chain creates its
own record with retryCount 0. -/
theorem c2_record_per_attempt_witness :
    ∃ l, (attemptStep (cfgScenB 100) "message" (envB 0) 0).record = some l ∧
      l.retryCount = 0 ∧ l.event = "message" :=
  c2_record_per_attempt (cfgScenB 100) "message" envB rfl (fun _ => rfl)
    (0, attemptStep (cfgScenB 100) "message" (envB 0) 0) (by decide)

/-- C3, counterexample: with the job-queue store unavailable,
`submitBatch` does not continue in a degraded in-memory mode — it
propagates a 503 `Message queue not available` error to the caller
and enqueues nothing. -/
theorem c3_counterexample :
    submitBatch true false [msgOne] 0 =
      { outcome := BulkOutcome.queueUnavailable, enqueued := [], sends := [] } := by
  decide

/-- C3, amended: when the record store (database) is unreachable, the
webhook dispatcher degrades as claimed: every attempt runs with no
record, never crashes on persistence and still posts; `submitBatch`,
however, does not degrade when its queue store is unavailable — it
rejects the call with a queue-unavailable error and enqueues zero
jobs. -/
theorem c3_degraded_dispatch (cfg : Config) (event : String) (envs : Nat → AttemptEnv)
    (hdb : cfg.dbConnected = false) (msgs : List BulkMsg) (nextId : Nat)
    (hv : validBulk msgs = true) :
    (∀ p ∈ sendToWebhook cfg event envs,
      p.2.record = none ∧ p.2.crashed = false ∧ p.2.posted = true) ∧
    submitBatch true false msgs nextId =
      { outcome := BulkOutcome.queueUnavailable, enqueued := [], sends := [] } := by
  constructor
  · intro p hp
    obtain ⟨hstep, _⟩ := sendToWebhook_mem cfg event envs p hp
    rw [hstep]
    obtain ⟨h1, h2⟩ := attemptStep_record_none cfg event (envs p.1) p.1 hdb
    exact ⟨h1, h2, attemptStep_posted cfg event (envs p.1) p.1⟩
  · simp [submitBatch, hv]

/-- C3, witness: with the database down, the first webhook attempt
creates no record; with the queue down, a valid one-item batch is
rejected with the queue-unavailable outcome. -/
theorem c3_degraded_dispatch_witness :
    ((attemptStep
        { webhookUrl := "http://callback.example"
          retryAttempts := 3
          retryDelay := 100
          dbConnected := false }
        "message" (envB 0) 0).record = none) ∧
    submitBatch true false [msgOne] 7 =
      { outcome := BulkOutcome.queueUnavailable, enqueued := [], sends := [] } := by
  have h := c3_degraded_dispatch
      { webhookUrl := "http://callback.example"
        retryAttempts := 3
        retryDelay := 100
        dbConnected := false }
      "message" envB rfl [msgOne] 7 (by decide)
  exact ⟨(h.1 (0, attemptStep _ "message" (envB 0) 0) (by decide)).1, h.2⟩

/-- C4: with an empty configured `WEBHOOK_URL`, dispatch is a no-op:
the chain is empty, so no record is created and no HTTP call is
performed. -/
theorem c4_empty_url_noop (cfg : Config) (event : String) (envs : Nat → AttemptEnv)
    (h : cfg.webhookUrl = "") :
    sendToWebhook cfg event envs = [] ∧
    (sendToWebhook cfg event envs).filterMap (fun p => p.2.record) = [] ∧
    (sendToWebhook cfg event envs).countP (fun p => p.2.posted) = 0 := by
  have he : sendToWebhook cfg event envs = [] := by
    unfold sendToWebhook; rw [if_pos h]
  exact ⟨he, by rw [he]; rfl, by rw [he]; rfl⟩

/-- C4, witness: concrete empty-URL configuration yields the empty
chain. -/
theorem c4_empty_url_noop_witness :
    sendToWebhook
      { webhookUrl := "", retryAttempts := 3, retryDelay := 100, dbConnected := true }
      "message" envB = [] :=
  (c4_empty_url_noop _ "message" envB rfl).1

/-- C5, counterexample: a reachable record violates the claimed
invariant `completedAt set iff state terminal`: when a 2xx POST is
followed by a failing success-save, the catch block moves the record
back to `retrying` while `completedAt` (set on the success path)
remains set. -/
theorem c5_counterexample :
    ((sendToWebhook (cfgScenB 100) "message" envSaveFail).map (fun p => p.2.record)).head? =
      some (some
        { event := "message"
          retryCount := 0
          status := RecStatus.retrying
          statusCode := none
          completedAt := true
          lastRetryAt := true }) ∧
    ¬(RecStatus.retrying = RecStatus.success ∨ RecStatus.retrying = RecStatus.failed) :=
  ⟨by decide, by decide⟩

/-- C5, amended: for every reachable record, `success` implies a 2xx
`statusCode`, and `failed` implies `retryCount = retryAttempts`; the
`completedAt`-iff-terminal invariant additionally requires that the
success-path save never fails (otherwise a `retrying` record can
retain `completedAt`). -/
theorem c5_record_invariants (cfg : Config) (event : String) (envs : Nat → AttemptEnv)
    (h2xx : ∀ r s, (envs r).post = PostResult.ok s → 200 ≤ s ∧ s < 300)
    (hsave : ∀ r, (envs r).saveOk1 = true)
    (p : Nat × AttemptResult) (hp : p ∈ sendToWebhook cfg event envs)
    (l : WebhookLog) (hl : p.2.record = some l) :
    (l.status = RecStatus.success → ∃ s, l.statusCode = some s ∧ 200 ≤ s ∧ s < 300) ∧
    (l.status = RecStatus.failed → l.retryCount = cfg.retryAttempts) ∧
    (l.completedAt = true ↔ l.status = RecStatus.success ∨ l.status = RecStatus.failed) := by
  obtain ⟨hstep, hle⟩ := sendToWebhook_mem cfg event envs p hp
  rw [hstep] at hl
  obtain ⟨hrc, _⟩ := attemptStep_record_retryCount cfg event (envs p.1) p.1 l hl
  obtain ⟨hfail, hsucc, hcomp⟩ := attemptStep_record_status cfg event (envs p.1) p.1 l hl
  refine ⟨?_, ?_, hcomp (hsave p.1)⟩
  · intro hs
    obtain ⟨s, hpost, hcode⟩ := hsucc hs
    exact ⟨s, hcode, h2xx p.1 s hpost⟩
  · intro hf
    have := hfail hf
    omega

/-- C5, witness: with zero configured retries and a permanently
failing endpoint, the single reachable failed record has
`retryCount = retryAttempts`. -/
theorem c5_record_invariants_witness :
    failedLog.retryCount = cfgA0.retryAttempts ∧
    (failedLog.completedAt = true ↔
      failedLog.status = RecStatus.success ∨ failedLog.status = RecStatus.failed) := by
  have h := c5_record_invariants cfgA0 "message" envB (fun r s hx => nomatch hx) (fun _ => rfl)
    (0, attemptStep cfgA0 "message" (envB 0) 0) (by decide) failedLog (by decide)
  exact ⟨h.2.1 rfl, h.2.2⟩

/-- C6: the delay of the n-th retry (numbering from 1) is
`baseDelay * 2 ^ (n - 1)` — the attempt at retryCount `r` schedules
retry `r + 1` after exactly that delay — and the delays are
non-decreasing in the retry number. -/
theorem c6_backoff (cfg : Config) (event : String) (env : AttemptEnv) (r n1 n2 : Nat)
    (hs : (attemptStep cfg event env r).retryScheduled = true)
    (_h1 : 1 ≤ n1) (h12 : n1 < n2) :
    (attemptStep cfg event env r).retryDelay = cfg.retryDelay * 2 ^ ((r + 1) - 1) ∧
    retryDelayOf cfg.retryDelay (n1 - 1) ≤ retryDelayOf cfg.retryDelay (n2 - 1) := by
  constructor
  · rw [attemptStep_retryDelay_eq cfg event env r hs]
    simp [retryDelayOf]
  · unfold retryDelayOf
    exact Nat.mul_le_mul_left _
      (Nat.pow_le_pow_right (by norm_num) (Nat.sub_le_sub_right (Nat.le_of_lt h12) 1))

/-- C6, witness: the first retry under Scenario B is scheduled after
`base * 2 ^ 0` and retry 1 waits no longer than retry 2. -/
theorem c6_backoff_witness :
    (attemptStep (cfgScenB 100) "message" (envB 0) 0).retryDelay = 100 * 2 ^ ((0 + 1) - 1) ∧
    retryDelayOf 100 (1 - 1) ≤ retryDelayOf 100 (2 - 1) :=
  c6_backoff (cfgScenB 100) "message" (envB 0) 0 1 2 (by decide) (by decide) (by decide)

/-- C7: a batch whose size is outside 1..100 is rejected synchronously
with a validation error and zero jobs are enqueued; a batch passing
the schema is never answered with a validation error. -/
theorem c7_batch_bounds (ready queueUp : Bool) (msgs : List BulkMsg) (nextId : Nat) :
    ((msgs.length < 1 ∨ 100 < msgs.length) →
      submitBatch ready queueUp msgs nextId =
        { outcome := BulkOutcome.validationError, enqueued := [], sends := [] }) ∧
    (validBulk msgs = true →
      (submitBatch ready queueUp msgs nextId).outcome ≠ BulkOutcome.validationError) := by
  constructor
  · intro h
    have hv : validBulk msgs = false := by
      unfold validBulk
      rcases h with h | h
      · have : ¬ (1 ≤ msgs.length) := by omega
        simp [this]
      · have : ¬ (msgs.length ≤ 100) := by omega
        simp [this]
    simp [submitBatch, hv]
  · intro hv
    unfold submitBatch
    rw [hv]
    by_cases hr : ready <;> by_cases hq : queueUp <;> simp [hr, hq]

/-- C7, witness: 101 items in one call are rejected with a validation
error and zero enqueued jobs (Scenario D). -/
theorem c7_batch_bounds_witness :
    submitBatch true true (List.replicate 101 msgOne) 0 =
      { outcome := BulkOutcome.validationError, enqueued := [], sends := [] } :=
  (c7_batch_bounds true true (List.replicate 101 msgOne) 0).1 (Or.inr (by decide))

/-- C8: a valid batch enqueues one job per item, answers with one
`{target, jobId}` pair per item in submission order, and performs no
provider send itself. -/
theorem c8_enqueue_only (msgs : List BulkMsg) (nextId : Nat) (hv : validBulk msgs = true) :
    submitBatch true true msgs nextId =
      { outcome := BulkOutcome.ok (msgs.enum.map (fun p => (p.2.number, nextId + p.1)))
        enqueued := msgs.enum.map (fun p => (p.2, nextId + p.1))
        sends := [] } ∧
    (submitBatch true true msgs nextId).enqueued.length = msgs.length ∧
    (submitBatch true true msgs nextId).sends = [] := by
  have he : submitBatch true true msgs nextId =
      { outcome := BulkOutcome.ok (msgs.enum.map (fun p => (p.2.number, nextId + p.1)))
        enqueued := msgs.enum.map (fun p => (p.2, nextId + p.1))
        sends := [] } := by
    simp [submitBatch, hv, Function.comp]
  refine ⟨he, ?_, by rw [he]⟩
  rw [he]
  simp

/-- C8, witness: a concrete two-item batch is enqueued in order with
consecutive job ids and no sends. -/
theorem c8_enqueue_only_witness :
    submitBatch true true [msgOne, msgTwo] 7 =
      { outcome := BulkOutcome.ok ([msgOne, msgTwo].enum.map (fun p => (p.2.number, 7 + p.1)))
        enqueued := [msgOne, msgTwo].enum.map (fun p => (p.2, 7 + p.1))
        sends := [] } :=
  (c8_enqueue_only [msgOne, msgTwo] 7 (by decide)).1

/-- C9: if the POST gets a 2xx answer but persisting the success
outcome fails (and the catch-path save succeeds), the attempt is
treated as a failure: a retry is scheduled and the chain performs at
least two POSTs for the one event — every chain entry performs a
POST. -/
theorem c9_success_save_retry (cfg : Config) (event : String) (envs : Nat → AttemptEnv) (s : Nat)
    (hurl : cfg.webhookUrl ≠ "") (hdb : cfg.dbConnected = true) (hA : 0 < cfg.retryAttempts)
    (hc : (envs 0).createOk = true) (hpost : (envs 0).post = PostResult.ok s)
    (hs1 : (envs 0).saveOk1 = false) (hs2 : (envs 0).saveOk2 = true) :
    2 ≤ (sendToWebhook cfg event envs).length ∧
    (sendToWebhook cfg event envs).countP (fun p => p.2.posted) =
      (sendToWebhook cfg event envs).length ∧
    (sendToWebhook cfg event envs).head?.map (fun p => p.2.retryScheduled) = some true := by
  have hres : (attemptStep cfg event (envs 0) 0).retryScheduled = true := by
    simp [attemptStep, hdb, hc, hpost, hs1, hs2, hA]
  have hcount : (sendToWebhook cfg event envs).countP (fun p => p.2.posted) =
      (sendToWebhook cfg event envs).length := by
    refine List.countP_eq_length.mpr (fun p hp => ?_)
    obtain ⟨hstep, _⟩ := sendToWebhook_mem cfg event envs p hp
    simpa [hstep] using attemptStep_posted cfg event (envs p.1) p.1
  obtain ⟨k, hk⟩ : ∃ k, cfg.retryAttempts = k + 1 := ⟨cfg.retryAttempts - 1, by omega⟩
  refine ⟨?_, hcount, ?_⟩
  · unfold sendToWebhook
    rw [if_neg hurl, hk]
    rw [runFrom]
    simp only [hres, if_true]
    rw [runFrom]
    simp [List.length_cons]
  · unfold sendToWebhook
    rw [if_neg hurl, hk]
    rw [runFrom]
    simp [hres]

/-- C9, witness: a chain whose first attempt gets HTTP 200 but whose
success-save fails performs at least two POSTs. -/
theorem c9_success_save_retry_witness :
    2 ≤ (sendToWebhook (cfgScenB 100) "message" envs9).length :=
  (c9_success_save_retry (cfgScenB 100) "message" envs9 200 (by decide) rfl (by decide)
    rfl rfl rfl rfl).1

/-- C10: the recipient identifier passed to the provider — by the
queue worker and by the direct send route — is the caller-supplied
target unchanged when it contains the substring `@c.us`, and the
target with `@c.us` appended otherwise. -/
theorem c10_chat_id (j : QueuedJob) (n m : String) :
    (containsCus j.number = true → processJob j = (j.number, j.message)) ∧
    (containsCus j.number = false → processJob j = (j.number ++ "@c.us", j.message)) ∧
    sendMessageRoute n m = (formatChatId n, m) := by
  refine ⟨?_, ?_, rfl⟩ <;> intro h <;> simp [processJob, formatChatId, h]

/-- C10, witness: a bare number gets `@c.us` appended. -/
theorem c10_chat_id_witness :
    processJob { number := "123", message := "hi", delay := none } = ("123" ++ "@c.us", "hi") :=
  (c10_chat_id { number := "123", message := "hi", delay := none } "1" "x").2.1 (by decide)

end WA
